import Mathlib

/-!
# Verification of the cdn-services image/storage core

A shallow embedding, in Lean 4, of the image-variant pipeline and the
pluggable storage layer of the `cdn-services` repository
(`src/index.js`, `src/storage/StorageManager.js`,
`src/storage/FilesystemAdapter.js`), together with theorems settling the
specification claims about them.

Conventions of the embedding:

* Finite JavaScript numbers reachable in this code are exactly the values
  of decimal literals, `m * 10 ^ e`.  They are modelled as canonical
  decimal-scientific pairs (`DecNum`: mantissa not divisible by ten), on
  which Lean equality coincides with numeric equality.  Every value the
  claims exercise is a small integer, far below 2^53, where IEEE doubles
  and this exact model agree.  `NaN`, `±Infinity` and `undefined` are
  explicit constructors of `JSVal`.
* `Number(string)` (the ECMAScript `StringToNumber` conversion used by
  `size.split('x').map(Number)`) is embedded as `jsStringToNumber`,
  covering whitespace trimming, the empty string (→ 0), optional sign,
  `Infinity`, decimal literals with fraction and exponent, and the
  `0x`/`0o`/`0b` radix prefixes.
* Number-to-string (used by the template literal that builds the cache key)
  is embedded as `jsValToString`.  It is exact on every value
  `jsStringToNumber` can produce, except that the exponential-notation
  regimes of `Number::toString` (|x| ≥ 1e21 or 0 < |x| < 1e-6) are outside
  every value reachable in the claims and are not modelled.
* Asynchronous I/O is modelled by explicit outcome parameters: each
  filesystem / transport call is represented by the outcome the
  environment gives it (`FsOutcome`), and a rejected promise caught by a
  `try`/`catch` is an `Except.error` consumed by the surrounding control
  flow.
-/

/-- A finite JavaScript number in canonical decimal-scientific form
`m * 10 ^ e` (the mantissa `m` is zero, with `e = 0`, or not divisible
by ten).  Every value produced by `StringToNumber` from a decimal or
radix literal has this shape exactly. -/
structure DecNum where
  m : ℤ
  e : ℤ
deriving DecidableEq, Repr

/-- Strip factors of ten from the mantissa into the exponent
(fuel-bounded; fuel `|m|` always suffices). -/
def stripTensAux : ℕ → ℤ → ℤ → DecNum
  | 0, m, e => ⟨m, e⟩
  | fuel + 1, m, e =>
    if m ≠ 0 ∧ m % 10 = 0 then stripTensAux fuel (m / 10) (e + 1) else ⟨m, e⟩

/-- Canonical constructor for `DecNum`. -/
def mkDecNum (m e : ℤ) : DecNum :=
  if m = 0 then ⟨0, 0⟩ else stripTensAux m.natAbs m e

/-- Negation preserves canonical form. -/
def DecNum.neg (d : DecNum) : DecNum := ⟨-d.m, d.e⟩

/-- JavaScript runtime values that flow through the size parser and the
cache-key template literal: `undefined`, `NaN`, signed infinities and
finite numbers. -/
inductive JSVal where
  | undefined : JSVal
  | nan : JSVal
  | inf (neg : Bool) : JSVal
  | num (d : DecNum) : JSVal
deriving DecidableEq, Repr

/-- The finite JS number with integer value `n`. -/
def jsInt (n : ℤ) : JSVal := .num (mkDecNum n 0)

/-- Characters stripped by `StringToNumber` before parsing (StrWhiteSpace):
space, tab, LF, VT, FF, CR, NBSP, BOM, and the line/paragraph separators. -/
def jsWhitespaceChars : List Char :=
  [' ', '\t', '\n', '\r', Char.ofNat 11, Char.ofNat 12, Char.ofNat 160,
   Char.ofNat 65279, Char.ofNat 8232, Char.ofNat 8233]

/-- Trim JS whitespace from both ends of a character list. -/
def jsTrimChars (cs : List Char) : List Char :=
  ((cs.dropWhile (jsWhitespaceChars.contains ·)).reverse.dropWhile
    (jsWhitespaceChars.contains ·)).reverse

/-- Value of a decimal digit character. -/
def decDigitVal (c : Char) : ℕ := c.toNat - '0'.toNat

/-- Value of a hexadecimal digit character. -/
def hexDigitVal (c : Char) : ℕ :=
  if c.isDigit then decDigitVal c
  else if 'a' ≤ c ∧ c ≤ 'f' then c.toNat - 'a'.toNat + 10
  else if 'A' ≤ c ∧ c ≤ 'F' then c.toNat - 'A'.toNat + 10
  else 0

def isHexDigitChar (c : Char) : Bool :=
  c.isDigit || ('a' ≤ c && c ≤ 'f') || ('A' ≤ c && c ≤ 'F')

def isOctDigitChar (c : Char) : Bool := '0' ≤ c && c ≤ '7'

def isBinDigitChar (c : Char) : Bool := c = '0' || c = '1'

/-- Read a digit list in the given base (digits assumed valid). -/
def radixToNat (base : ℕ) (cs : List Char) : ℕ :=
  cs.foldl (fun n c => base * n + hexDigitVal c) 0

/-- Read a decimal digit list as a natural number. -/
def decDigitsToNat (cs : List Char) : ℕ := radixToNat 10 cs

/-- Parse the optional exponent part of a decimal literal
(`e`/`E`, optional sign, digits); `some e` also covers the empty rest.
`none` means the remaining characters are not a valid exponent, so the
whole literal is malformed (`NaN`). -/
def parseExpPart : List Char → Option ℤ
  | [] => some 0
  | c :: rest =>
    if c = 'e' ∨ c = 'E' then
      match rest with
      | '+' :: ds =>
        if ds ≠ [] ∧ ds.all (·.isDigit) then some (decDigitsToNat ds) else none
      | '-' :: ds =>
        if ds ≠ [] ∧ ds.all (·.isDigit) then some (-(decDigitsToNat ds : ℤ)) else none
      | ds =>
        if ds ≠ [] ∧ ds.all (·.isDigit) then some (decDigitsToNat ds) else none
    else none

/-- Parse an `StrUnsignedDecimalLiteral`: `digits [. digits] [exp]`,
`. digits [exp]`, or `digits . [exp]`.  The value of
`ip . fp e exp` is `digits(ip ++ fp) * 10 ^ (exp - |fp|)`. -/
def parseUnsignedDec (cs : List Char) : Option DecNum :=
  let ip := cs.takeWhile (·.isDigit)
  let r1 := cs.dropWhile (·.isDigit)
  match r1 with
  | '.' :: r2 =>
    let fp := r2.takeWhile (·.isDigit)
    let r3 := r2.dropWhile (·.isDigit)
    if ip.isEmpty ∧ fp.isEmpty then none
    else
      (parseExpPart r3).map fun ex =>
        mkDecNum (decDigitsToNat (ip ++ fp)) (ex - fp.length)
  | _ =>
    if ip.isEmpty then none
    else (parseExpPart r1).map fun ex => mkDecNum (decDigitsToNat ip) ex

/-- Radix-prefixed literal body: all digits valid for the base, nonempty. -/
def radixOrNaN (base : ℕ) (ok : Char → Bool) (cs : List Char) : JSVal :=
  if cs ≠ [] ∧ cs.all ok then .num (mkDecNum (radixToNat base cs) 0) else .nan

/-- Unsigned part after an explicit `+`/`-` sign: `Infinity` or a decimal
literal (radix prefixes are not allowed after a sign). -/
def jsParseAfterSign (cs : List Char) (neg : Bool) : JSVal :=
  if cs = "Infinity".toList then .inf neg
  else
    match parseUnsignedDec cs with
    | some d => .num (if neg then d.neg else d)
    | none => .nan

/-- Unsigned top-level literal: `Infinity`, `0x`/`0o`/`0b` radix literals,
or a decimal literal. -/
def jsParseNoSign (cs : List Char) : JSVal :=
  if cs = "Infinity".toList then .inf false
  else
    match cs with
    | '0' :: c :: rest =>
      if c = 'x' ∨ c = 'X' then radixOrNaN 16 isHexDigitChar rest
      else if c = 'o' ∨ c = 'O' then radixOrNaN 8 isOctDigitChar rest
      else if c = 'b' ∨ c = 'B' then radixOrNaN 2 isBinDigitChar rest
      else
        match parseUnsignedDec cs with
        | some d => .num d
        | none => .nan
    | _ =>
      match parseUnsignedDec cs with
      | some d => .num d
      | none => .nan

/-- ECMAScript `Number(string)` / `StringToNumber`: trim whitespace, empty
string converts to `0`, otherwise parse a (possibly signed) numeric
literal, yielding `NaN` on any malformed input. -/
def jsStringToNumber (s : String) : JSVal :=
  match jsTrimChars s.toList with
  | [] => .num ⟨0, 0⟩
  | '+' :: rest => jsParseAfterSign rest false
  | '-' :: rest => jsParseAfterSign rest true
  | t => jsParseNoSign t

/-- Source: `Number(undefined)` is `NaN`; `map(Number)` over a split array applies
`jsStringToNumber` to present elements, and array destructuring of a
missing element yields `undefined`. -/
def jsNumberOfPiece (pieces : List String) (i : ℕ) : JSVal :=
  match pieces.get? i with
  | some p => jsStringToNumber p
  | none => .undefined

/-- The global `isNaN`: coerces its argument with `ToNumber` first, so
`isNaN(undefined)` is `true`. -/
def jsIsNaN : JSVal → Bool
  | .undefined => true
  | .nan => true
  | .inf _ => false
  | .num _ => false

/-- Source: `Number::toString` (base 10) on a finite value `m * 10 ^ e` in
canonical form: integers print as signed decimal digit strings; values
with `e < 0` print with a decimal point and (since ten does not divide
`m`) no trailing zeros, which is `toString`'s shortest-round-trip output
for every such value the parser can produce. -/
def decNumToString (d : DecNum) : String :=
  if d.m = 0 then "0"
  else
    let sign := if d.m < 0 then "-" else ""
    if 0 ≤ d.e then sign ++ toString (d.m.natAbs * 10 ^ d.e.toNat)
    else
      let k := (-d.e).toNat
      let dsl := (toString d.m.natAbs).toList
      let padded :=
        if dsl.length ≤ k then List.replicate (k + 1 - dsl.length) '0' ++ dsl
        else dsl
      sign ++ String.mk (padded.take (padded.length - k)) ++ "." ++
        String.mk (padded.drop (padded.length - k))

/-- ECMAScript `ToString` as used by template literals, on the values that
can reach the cache-key interpolation. -/
def jsValToString : JSVal → String
  | .undefined => "undefined"
  | .nan => "NaN"
  | .inf neg => if neg then "-Infinity" else "Infinity"
  | .num d => decNumToString d


/-! ## The GET /api/image/:id/:size/:format pipeline (src/index.js 254-349) -/

/-- Source: `format.toLowerCase()`.  JavaScript lowercases the full Unicode range;
this embedding lowercases ASCII (`Char.toLower`), which agrees with
JavaScript on every string whose lowercase form could be one of the
supported format tokens. -/
def jsToLowerCase (s : String) : String := String.mk (s.toList.map Char.toLower)

/-- Source: `s.includes(c)` for a one-character needle. -/
def jsIncludesChar (s : String) (c : Char) : Bool := s.toList.contains c

/-- Source: `s.split(sep)` for a one-character separator: splits at every
occurrence and keeps empty pieces, so `'300x'.split('x')` is
`['300', '']` and `'x'.split('x')` is `['', '']`. -/
def splitOnCharAux (sep : Char) : List Char → List Char → List String
  | [], acc => [String.mk acc.reverse]
  | c :: cs, acc =>
    if c = sep then String.mk acc.reverse :: splitOnCharAux sep cs []
    else splitOnCharAux sep cs (c :: acc)

def jsSplitOnChar (s : String) (sep : Char) : List String :=
  splitOnCharAux sep s.toList []

/-- Source: `s.startsWith(p)`. -/
def jsStartsWith (s p : String) : Bool := p.toList.isPrefixOf s.toList

/-- Source: `const supportedFormats = ['jpeg', 'jpg', 'png', 'webp', 'gif']`
(src/index.js 259). -/
def supportedVariantFormats : List String := ["jpeg", "jpg", "png", "webp", "gif"]

/-- The `presetSizes` object literal's own properties
(src/index.js 276-281). -/
def presetSizes : List (String × ℤ × ℤ) :=
  [("thumbnail", 150, 150), ("small", 300, 300),
   ("medium", 800, 800), ("large", 1920, 1080)]

/-- Property names the object literal `presetSizes` inherits from
`Object.prototype` whose values are truthy (functions, and the
`__proto__` accessor's object result).  For these tokens the JavaScript
truthiness test `if (presetSizes[size])` succeeds even though they are
not preset names, and the destructuring
`({ width, height } = presetSizes[size])` then yields `undefined` for
both components. -/
def objectProtoKeys : List String :=
  ["constructor", "toString", "toLocaleString", "valueOf", "hasOwnProperty",
   "isPrototypeOf", "propertyIsEnumerable", "__proto__", "__defineGetter__",
   "__defineSetter__", "__lookupGetter__", "__lookupSetter__"]

/-- Outcome of the size-token branch of the handler
(src/index.js 283-292). -/
inductive SizeParse where
  | ok (width height : JSVal) : SizeParse
  | invalidSizeFormat : SizeParse
  | invalidSizeParam : SizeParse
deriving DecidableEq, Repr

/-- The size-token logic of the variant handler (src/index.js 283-292):

* `if (presetSizes[size]) ({width, height} = presetSizes[size])` — own
  preset properties first, then the truthy inherited `Object.prototype`
  members;
* `else if (size.includes('x'))` — split on `'x'`, convert the first two
  pieces with `Number`, reject with `Invalid size format` (400) when
  either is `NaN`;
* `else` — reject with `Invalid size parameter` (400). -/
def parseVariantSize (size : String) : SizeParse :=
  match presetSizes.lookup size with
  | some wh => .ok (jsInt wh.1) (jsInt wh.2)
  | none =>
    if size ∈ objectProtoKeys then .ok .undefined .undefined
    else if jsIncludesChar size 'x' then
      let pieces := jsSplitOnChar size 'x'
      let w := jsNumberOfPiece pieces 0
      let h := jsNumberOfPiece pieces 1
      if jsIsNaN w || jsIsNaN h then .invalidSizeFormat
      else .ok w h
    else .invalidSizeParam

/-- The `switch (format.toLowerCase())` encoder selection
(src/index.js 319-333): `jpeg`/`jpg` → jpeg quality 85, `png` →
compression level 8, `webp` → quality 85, `gif` → default settings; no
`default` case, so any other token leaves the sharp pipeline unchanged. -/
inductive SharpEncoder where
  | jpeg (quality : ℕ) : SharpEncoder
  | png (compressionLevel : ℕ) : SharpEncoder
  | webp (quality : ℕ) : SharpEncoder
  | gif : SharpEncoder
  | passthrough : SharpEncoder
deriving DecidableEq, Repr

def encoderFor (format : String) : SharpEncoder :=
  match jsToLowerCase format with
  | "jpeg" => .jpeg 85
  | "jpg" => .jpeg 85
  | "png" => .png 8
  | "webp" => .webp 85
  | "gif" => .gif
  | _ => .passthrough

/-- Source: `image/${format === 'jpg' ? 'jpeg' : format}` (src/index.js 340):
the raw format token is compared against the exact string `'jpg'`. -/
def contentTypeFor (format : String) : String :=
  "image/" ++ (if format = "jpg" then "jpeg" else format)

/-- Source: `const cacheKey = ${id}_${width}x${height}_${format}`
(src/index.js 295): the raw requested format token is embedded, and the
width/height values are stringified by the template literal. -/
def cacheKey (id : String) (w h : JSVal) (format : String) : String :=
  id ++ "_" ++ jsValToString w ++ "x" ++ jsValToString h ++ "_" ++ format

/-- Source: `path.join(CACHE_DIR, `${cacheKey}.${format}`)` (src/index.js 296),
relative to the cache root. -/
def cacheFileName (id : String) (w h : JSVal) (format : String) : String :=
  cacheKey id w h format ++ "." ++ format

/-- The environment a single variant request runs against: the working
directory listing, the cache directory listing, and the outcomes the
filesystem gives to the two fallible steps (sharp decode/encode and the
cache write). -/
structure VariantEnv where
  uploadFiles : List String
  cacheFiles : List String
  decodeOk : Bool
  cacheWriteOk : Bool
deriving DecidableEq, Repr

/-- The variant handler's observable responses. -/
inductive VariantResult where
  | unsupportedFormat : VariantResult
  | imageNotFound : VariantResult
  | invalidSizeFormat : VariantResult
  | invalidSizeParam : VariantResult
  | servedFromCache (file : String) : VariantResult
  | processingError : VariantResult
  | served (contentType : String) (newCacheFile : String) : VariantResult
deriving DecidableEq, Repr

/-- The `GET /api/image/:id/:size/:format` handler (src/index.js 254-349),
step by step in source order:

1. format validity (`supportedFormats.includes(format.toLowerCase())`,
   line 260) — else 400 `Unsupported format`;
2. locate the original (`files.find(f => f.startsWith(id))`, line 266) —
   else 404 `Image not found`;
3. parse the size token (lines 283-292) — else 400;
4. cache probe (`fs.access(cachePath)`, line 300) — hit is served
   directly;
5. decode/resize/encode (`sharpInstance.toBuffer()`, line 336) — a
   rejection reaches the handler's outer `catch` (line 345), a 500;
6. cache write (`fs.writeFile(cachePath, processedBuffer)`, line 337) —
   a rejection also reaches the outer `catch`, a 500, because no
   narrower handler surrounds it;
7. send the rendered bytes with the derived `Content-Type`. -/
def handleVariant (id size format : String) (env : VariantEnv) : VariantResult :=
  if jsToLowerCase format ∉ supportedVariantFormats then
    .unsupportedFormat
  else
    match env.uploadFiles.find? (fun f => jsStartsWith f id) with
    | none => .imageNotFound
    | some _ =>
      match parseVariantSize size with
      | .invalidSizeFormat => .invalidSizeFormat
      | .invalidSizeParam => .invalidSizeParam
      | .ok w h =>
        let file := cacheFileName id w h format
        if file ∈ env.cacheFiles then .servedFromCache file
        else if ¬ env.decodeOk then .processingError
        else if ¬ env.cacheWriteOk then .processingError
        else .served (contentTypeFor format) file


/-! ## JavaScript property lookup and the driver `url` methods
(src/storage/FilesystemAdapter.js) -/

/-- A JavaScript value sitting in an object property, as far as lookup
and calling are concerned: a string, an opaque non-callable object (the
SDK client instances), or `undefined`. -/
inductive JSPropVal where
  | str (s : String) : JSPropVal
  | obj : JSPropVal
  | undefVal : JSPropVal
deriving DecidableEq, Repr

/-- A driver instance: the own properties its constructor assigned (in
assignment order) and the method names its `class` body placed on the
prototype. -/
structure JSObject where
  own : List (String × JSPropVal)
  protoMethods : List String
deriving Repr

inductive PropLookup where
  | ownValue (v : JSPropVal) : PropLookup
  | protoMethod (name : String) : PropLookup
  | missing : PropLookup
deriving DecidableEq, Repr

/-- JavaScript property lookup: an own property shadows the prototype
chain even when its value is `undefined` (assignment in the constructor
creates the own property regardless of the assigned value). -/
def getProp (o : JSObject) (k : String) : PropLookup :=
  match o.own.lookup k with
  | some v => .ownValue v
  | none => if k ∈ o.protoMethods then .protoMethod k else .missing

inductive JSCallError where
  | typeErrorNotAFunction : JSCallError
deriving DecidableEq, Repr

/-- Source: `o.k(...)`: dispatches to the prototype method when lookup reaches
one; calling a string, an opaque object, `undefined`, or a missing
property throws `TypeError: o.k is not a function`. -/
def callMethod (o : JSObject) (k : String) : Except JSCallError String :=
  match getProp o k with
  | .protoMethod name => .ok name
  | _ => .error .typeErrorNotAFunction

/-- Source: `config.x || fallback` for an optional string option: `undefined` and
the empty string are falsy. -/
def jsOrDefault (v : Option String) (fallback : String) : String :=
  match v with
  | some s => if s = "" then fallback else s
  | none => fallback

/-- An optional config string as a property value (`undefined` when the
option is absent). -/
def optStr : Option String → JSPropVal
  | some s => .str s
  | none => .undefVal

/-- Source: `new LocalDriver(config)` (FilesystemAdapter.js 215-219): the
constructor assigns own `root` and `url` strings; the class declares
these prototype methods.  The own `url` string shadows the prototype
`url(filePath)` method. -/
def mkLocalDriver (cwd : String) (root url : Option String) : JSObject where
  own := [("root", .str (jsOrDefault root (cwd ++ "/storage"))),
          ("url", .str (jsOrDefault url "/storage"))]
  protoMethods := ["ensureDirectory", "getFullPath", "exists", "get", "put",
                   "delete", "copy", "size", "lastModified", "mimeType",
                   "url", "temporaryUrl"]

/-- Source: `new S3Driver(config)` (FilesystemAdapter.js 331-343): own
`bucket`, `region`, `url` and `client`; `this.url = config.url` creates
the own property even when `config.url` is `undefined`. -/
def mkS3Driver (bucket : Option String) (region : Option String)
    (url : Option String) : JSObject where
  own := [("bucket", optStr bucket),
          ("region", .str (jsOrDefault region "us-east-1")),
          ("url", optStr url), ("client", .obj)]
  protoMethods := ["exists", "get", "put", "delete", "copy", "size",
                   "lastModified", "mimeType", "url", "temporaryUrl"]

/-- Source: `new AzureDriver(config)` (FilesystemAdapter.js 457-464). -/
def mkAzureDriver (container connectionString url : Option String) : JSObject where
  own := [("containerName", .str (jsOrDefault container "files")),
          ("connectionString", optStr connectionString),
          ("url", optStr url), ("client", .obj), ("containerClient", .obj)]
  protoMethods := ["exists", "get", "put", "delete", "copy", "size",
                   "lastModified", "mimeType", "url", "temporaryUrl"]

/-- Source: `new GCSDriver(config)` (FilesystemAdapter.js 557-570). -/
def mkGCSDriver (bucket projectId keyFilename url : Option String) : JSObject where
  own := [("bucketName", optStr bucket), ("projectId", optStr projectId),
          ("keyFilename", optStr keyFilename), ("url", optStr url),
          ("storage", .obj), ("bucket", .obj)]
  protoMethods := ["exists", "get", "put", "delete", "copy", "size",
                   "lastModified", "mimeType", "url", "temporaryUrl"]

/-- Source: `FilesystemAdapter.url(filePath)` is
`return this.client.url(filePath)` (FilesystemAdapter.js 200-202): its
observable behavior is that of the property call `client.url(...)` on
the driver instance. -/
def adapterUrlCall (client : JSObject) : Except JSCallError String :=
  callMethod client "url"

/-- What the unreachable `LocalDriver.url` prototype method body
(FilesystemAdapter.js 318-320) would compute with `this.url` bound to
the constructor-assigned base-URL string: `${this.url}/${filePath}`. -/
def localUrlMethodBody (baseUrl filePath : String) : String :=
  baseUrl ++ "/" ++ filePath

/-! ## StorageManager (src/storage/StorageManager.js) -/

/-- The shape of `config.storage` that `StorageManager` reads: the
optional default-disk name and the configured disks (name → driver tag,
in object-entry order; the per-disk connection config is opaque here). -/
structure StorageConfig where
  dflt : Option String
  disks : List (String × String)
deriving Repr

/-- Source: `this.defaultDisk = config.storage?.default || 'local'`
(StorageManager.js 44): absent or empty (falsy) defaults to `local`. -/
def defaultDiskName (c : StorageConfig) : String := jsOrDefault c.dflt "local"

/-- A registry entry: an adapter built from an explicitly configured
disk, or the implicit local-driver fallback adapter. -/
inductive DiskEntry where
  | configured (driver : String) : DiskEntry
  | localFallback : DiskEntry
deriving DecidableEq, Repr

/-- Driver tags `FilesystemAdapter`'s constructor accepts
(FilesystemAdapter.js 113-130); any other tag throws
`Unsupported storage driver`. -/
def knownDrivers : List String := ["local", "s3", "azure", "gcs"]

/-- Source: `initializeDisks` (StorageManager.js 51-68): build an adapter for
every configured disk (an unknown driver tag throws), then, if the
registry lacks an entry under the *default disk name*, add a local
fallback adapter under that name. -/
def initializeDisks (c : StorageConfig) : Except String (List (String × DiskEntry)) :=
  if c.disks.all (fun d => d.2 ∈ knownDrivers) then
    if ((c.disks.map (fun d => (d.1, DiskEntry.configured d.2))).lookup
        (defaultDiskName c)).isSome then
      .ok (c.disks.map (fun d => (d.1, DiskEntry.configured d.2)))
    else
      .ok (c.disks.map (fun d => (d.1, DiskEntry.configured d.2)) ++
        [(defaultDiskName c, .localFallback)])
  else .error "Unsupported storage driver"

/-- Source: `StorageManager.disk(name)` (StorageManager.js 73-81):
`const diskName = name || this.defaultDisk` (falsy `name`, that is
`null` or the empty string, selects the default), then a registry
lookup; a missing entry throws
`Storage disk "<name>" is not configured`. -/
def managerDisk (reg : List (String × DiskEntry)) (dfltName : String)
    (name : Option String) : Except String DiskEntry :=
  let diskName := jsOrDefault name dfltName
  match reg.lookup diskName with
  | some d => .ok d
  | none => .error ("Storage disk \"" ++ diskName ++ "\" is not configured")

/-! ## Driver operation fault semantics
(src/storage/FilesystemAdapter.js) -/

/-- The outcome the underlying filesystem / SDK call gives to one awaited
operation: resolution, a clean not-found rejection (`ENOENT`, a 404 from
the object store, ...), or any other fault (permissions, network, auth,
malformed response...). -/
inductive FsOutcome where
  | ok : FsOutcome
  | notFound : FsOutcome
  | fault : FsOutcome
deriving DecidableEq, Repr

/-- Source: `LocalDriver.exists` (FilesystemAdapter.js 235-243): `fs.access`
inside `try`/catch-all — every rejection becomes `false`. -/
def localExists : FsOutcome → Bool
  | .ok => true
  | _ => false

/-- Source: `LocalDriver.delete` (FilesystemAdapter.js 265-276): `fs.unlink`
inside `try`; the `catch` returns `false` only for `ENOENT` and rethrows
every other error. -/
def localDelete : FsOutcome → Except Unit Bool
  | .ok => .ok true
  | .notFound => .ok false
  | .fault => .error ()

/-- Source: `S3Driver.exists` (FilesystemAdapter.js 345-355): `HeadObject` inside
`try`/catch-all — every rejection becomes `false`. -/
def s3Exists : FsOutcome → Bool
  | .ok => true
  | _ => false

/-- Source: `S3Driver.delete` (FilesystemAdapter.js 386-397): catch-all — every
rejection, transport faults included, becomes `false`. -/
def s3Delete : FsOutcome → Except Unit Bool
  | .ok => .ok true
  | _ => .ok false

/-- Source: `AzureDriver.exists` (FilesystemAdapter.js 466-474): `getProperties`
inside `try`/catch-all. -/
def azureExists : FsOutcome → Bool
  | .ok => true
  | _ => false

/-- Source: `AzureDriver.delete` (FilesystemAdapter.js 501-509): catch-all. -/
def azureDelete : FsOutcome → Except Unit Bool
  | .ok => .ok true
  | _ => .ok false

/-- Source: `GCSDriver.exists` (FilesystemAdapter.js 572-576): **no** `try`/`catch`
— `file.exists()` resolves `[false]` for a missing object but a transport
fault rejects, and the rejection propagates out of `exists`. -/
def gcsExists : FsOutcome → Except Unit Bool
  | .ok => .ok true
  | .notFound => .ok false
  | .fault => .error ()

/-- Source: `GCSDriver.delete` (FilesystemAdapter.js 594-602): catch-all. -/
def gcsDelete : FsOutcome → Except Unit Bool
  | .ok => .ok true
  | _ => .ok false

/-- Source: `FilesystemAdapter.move(from, to)` (FilesystemAdapter.js 170-174):
`await this.copy(from, to); await this.delete(from); return true` — the
result of each awaited step is threaded through; a rejection at either
step propagates, and otherwise the move resolves `true` regardless of the
boolean `delete` returned. -/
def adapterMove (copyRes : Except Unit Unit) (delRes : Except Unit Bool) :
    Except Unit Bool :=
  match copyRes with
  | .error e => .error e
  | .ok _ =>
    match delRes with
    | .error e => .error e
    | .ok _ => .ok true

/-! ## The DELETE /api/image/:id handler and GET /api/image/:id
(src/index.js 236-251, 389-456) -/

/-- Server-side state the delete handler manipulates: the working-copy
directory listing, the cache directory listing, and the set of paths
present on the resolved backend disk. -/
structure ServerState where
  uploadFiles : List String
  cacheFiles : List String
  backendPaths : List String
deriving DecidableEq, Repr

/-- Source: `GET /api/image/:id` (src/index.js 236-251): scan the working
directory for the first file whose name starts with `id`; `none` is the
404 `Image not found` response, `some f` serves that file. -/
def getOriginal (st : ServerState) (id : String) : Option String :=
  st.uploadFiles.find? (fun f => jsStartsWith f id)

/-- Source: `DELETE /api/image/:id` (src/index.js 389-456), effect on the state,
in source order:

* find the first working-directory file whose name starts with `id`
  (line 402);
* if found and `disk.exists('images/' + file)`, call
  `disk.delete(...)` (lines 404-410) — the surrounding `try` swallows
  storage errors;
* if found, `fs.unlink` the working copy, ignoring errors (lines
  413-421);
* unlink every cache file whose name starts with `id` (lines 427-435);
* respond `{success: true}` on both the normal path and the cache-purge
  `catch` path (lines 437-448), so the response is success whether or
  not anything was found. -/
def deleteImage (st : ServerState) (id : String) : ServerState × Bool :=
  let orig := st.uploadFiles.find? (fun f => jsStartsWith f id)
  let backendPaths :=
    match orig with
    | some f =>
      if ("images/" ++ f) ∈ st.backendPaths then
        st.backendPaths.erase ("images/" ++ f)
      else st.backendPaths
    | none => st.backendPaths
  let uploadFiles :=
    match orig with
    | some f => st.uploadFiles.erase f
    | none => st.uploadFiles
  let cacheFiles := st.cacheFiles.filter (fun f => ¬ jsStartsWith f id)
  (⟨uploadFiles, cacheFiles, backendPaths⟩, true)

/-! ## Evaluation sanity checks -/

example : jsStringToNumber "150" = jsInt 150 := by decide
example : jsStringToNumber "" = jsInt 0 := by decide
example : jsStringToNumber "abc" = .nan := by decide
example : jsStringToNumber "-5" = jsInt (-5) := by decide
example : jsStringToNumber "1.5" = .num ⟨15, -1⟩ := by decide
example : jsStringToNumber "1.50" = .num ⟨15, -1⟩ := by decide
example : jsStringToNumber "0X1F" = jsInt 31 := by decide
example : jsStringToNumber " 42 " = jsInt 42 := by decide
example : jsStringToNumber "Infinity" = .inf false := by decide
example : jsValToString (jsInt 150) = "150" := by decide
example : jsValToString (.num ⟨15, -1⟩) = "1.5" := by decide
example : jsValToString (.num ⟨125, -3⟩) = "0.125" := by decide
example : jsValToString (jsInt (-8)) = "-8" := by decide

example : parseVariantSize "thumbnail" = .ok (jsInt 150) (jsInt 150) := by decide
example : parseVariantSize "300x300" = .ok (jsInt 300) (jsInt 300) := by decide
example : parseVariantSize "abcxdef" = .invalidSizeFormat := by decide
example : parseVariantSize "foo" = .invalidSizeParam := by decide
example : parseVariantSize "0x0" = .ok (jsInt 0) (jsInt 0) := by decide
example : parseVariantSize "-5x10" = .ok (jsInt (-5)) (jsInt 10) := by decide
example : parseVariantSize "300x" = .ok (jsInt 300) (jsInt 0) := by decide
example : parseVariantSize "1.5x2" = .ok (.num ⟨15, -1⟩) (jsInt 2) := by decide
example : cacheKey "img" (jsInt 150) (jsInt 150) "webp" = "img_150x150_webp" := by decide
example :
    handleVariant "a" "150x150" "png" ⟨["a.png"], [], true, true⟩ =
      .served "image/png" "a_150x150_png.png" := by decide

/-! ## Helper lemmas -/

theorem string_data_inj {a b : String} (h : a.data = b.data) : a = b := by
  cases a; cases b; exact congrArg String.mk h

theorem string_append_cancel_left {s a b : String} (h : s ++ a = s ++ b) :
    a = b := by
  have hd := congrArg String.data h
  rw [String.data_append, String.data_append] at hd
  exact string_data_inj (List.append_cancel_left hd)

theorem string_append_suffix_inj {x y u v : String} (h : x ++ u = y ++ v)
    (hlen : u.length = v.length) : u = v := by
  have hd := congrArg String.data h
  rw [String.data_append, String.data_append] at hd
  exact string_data_inj (List.append_inj' hd hlen).2

theorem cacheKey_format_inj {id : String} {w h : JSVal} {f g : String}
    (heq : cacheKey id w h f = cacheKey id w h g) : f = g := by
  unfold cacheKey at heq
  exact string_append_cancel_left heq

theorem cacheFileName_format_inj {id : String} {w h : JSVal} {f g : String}
    (heq : cacheFileName id w h f = cacheFileName id w h g) : f = g := by
  have hlen := congrArg String.length heq
  simp only [cacheFileName, cacheKey, String.length_append] at hlen
  have hfg : f.length = g.length := by omega
  unfold cacheFileName at heq
  exact string_append_suffix_inj heq hfg

theorem handleVariant_size_congr {s₁ s₂ : String}
    (hp : parseVariantSize s₁ = parseVariantSize s₂)
    (id format : String) (env : VariantEnv) :
    handleVariant id s₁ format env = handleVariant id s₂ format env := by
  unfold handleVariant
  rw [hp]

/-! ## C1 -/

/-- C1: the claim says `url(p)` on every driver returns a string built
from the configured base URL and `p`.  What the code does instead: every
driver's constructor assigns a string (or `undefined`) own property named
`url`, which shadows the prototype method `url(filePath)`, so
`FilesystemAdapter.url` → `this.client.url(filePath)` throws
`TypeError: not a function` for every driver and every configuration; in
the upload handler the `disk.url(filePath)` call therefore rejects and
the upload responds 500.  This contradicts the repository's own usage
documentation (STORAGE_AUTH_GUIDE.md: `const url = disk.url('path')`),
so the claim is right and the code is wrong. -/
theorem C1_url_call_throws_type_error (cwd : String)
    (rootCfg urlCfg bucketCfg regionCfg s3UrlCfg containerCfg csCfg
      azUrlCfg gBucketCfg gProjCfg gKeyCfg gUrlCfg : Option String) :
    adapterUrlCall (mkLocalDriver cwd rootCfg urlCfg) =
      .error .typeErrorNotAFunction ∧
    adapterUrlCall (mkS3Driver bucketCfg regionCfg s3UrlCfg) =
      .error .typeErrorNotAFunction ∧
    adapterUrlCall (mkAzureDriver containerCfg csCfg azUrlCfg) =
      .error .typeErrorNotAFunction ∧
    adapterUrlCall (mkGCSDriver gBucketCfg gProjCfg gKeyCfg gUrlCfg) =
      .error .typeErrorNotAFunction :=
  ⟨rfl, rfl, rfl, rfl⟩

/-- C1, concrete instance: the default local disk (no configured root or
base URL) throws on `url('images/photo.jpg')`, while the shadowed
prototype method body would have produced `/storage/images/photo.jpg`. -/
theorem C1_witness :
    adapterUrlCall (mkLocalDriver "/app/src" none none) =
      .error .typeErrorNotAFunction ∧
    localUrlMethodBody "/storage" "images/photo.jpg" =
      "/storage/images/photo.jpg" :=
  ⟨(C1_url_call_throws_type_error "/app/src" none none none none none none
      none none none none none none).1, rfl⟩

/-! ## C2 -/

/-- C2 counterexample: a request that reaches the transform step
(valid format `webp`, original `img1.png` present, valid size `300x300`,
cold cache, successful decode) whose cache write fails is answered with
the outer-catch 500 (`processingError`), not with a success carrying the
rendered bytes: `fs.writeFile(cachePath, processedBuffer)` (src/index.js
337) has no surrounding catch narrower than the handler's, so its
rejection aborts the request before `res.send(processedBuffer)`. -/
theorem C2_counterexample :
    handleVariant "img1" "300x300" "webp"
      ⟨["img1.png"], [], true, false⟩ = .processingError := by decide

/-- C2 as amended: for every GET-variant request that reaches the
transform step, if writing the rendered bytes to the derivative cache
fails, the whole request fails with the handler's catch-all 500 response;
the rendered bytes are not served. -/
theorem C2_amended_cache_write_fails_request
    (id size format : String) (env : VariantEnv) (w h : JSVal)
    (hfmt : jsToLowerCase format ∈ supportedVariantFormats)
    (horig : (env.uploadFiles.find? (fun f => jsStartsWith f id)).isSome = true)
    (hparse : parseVariantSize size = .ok w h)
    (hmiss : cacheFileName id w h format ∉ env.cacheFiles)
    (hdec : env.decodeOk = true)
    (hwr : env.cacheWriteOk = false) :
    handleVariant id size format env = .processingError := by
  obtain ⟨f, hf⟩ := Option.isSome_iff_exists.mp horig
  simp [handleVariant, hf, hparse, hfmt, hmiss, hdec, hwr]

theorem C2_witness :
    handleVariant "aa" "150x150" "png"
      ⟨["aa.png", "bb.png"], ["bb_150x150_png.png"], true, false⟩ =
      .processingError :=
  C2_amended_cache_write_fails_request "aa" "150x150" "png"
    ⟨["aa.png", "bb.png"], ["bb_150x150_png.png"], true, false⟩
    (jsInt 150) (jsInt 150) (by decide) (by decide) (by decide) (by decide)
    rfl rfl

/-! ## C3 -/

/-- C3 counterexample: the claim says an invalid size token yields 400
for every id, including ids with no matching original.  In the code the
original is located *before* the size token is parsed (src/index.js
265-269 vs 283-292), so a request with an unknown id and a malformed
size token (`notasize` is neither a preset nor contains `x`) is answered
404, not 400. -/
theorem C3_counterexample :
    handleVariant "ghost" "notasize" "png" ⟨[], [], true, true⟩ =
      .imageNotFound := by decide

/-- C3 as amended: the format token alone is checked before the original
is located — an unsupported format yields 400 for every id; the size
token is parsed only after the original is found, so a request with a
valid format and no matching original yields 404 whatever its size
token, and size-token 400s occur only when the original exists. -/
theorem C3_amended_check_order (id size format : String) (env : VariantEnv) :
    (jsToLowerCase format ∉ supportedVariantFormats →
      handleVariant id size format env = .unsupportedFormat) ∧
    (jsToLowerCase format ∈ supportedVariantFormats →
      env.uploadFiles.find? (fun f => jsStartsWith f id) = none →
      handleVariant id size format env = .imageNotFound) ∧
    (∀ f, jsToLowerCase format ∈ supportedVariantFormats →
      env.uploadFiles.find? (fun g => jsStartsWith g id) = some f →
      parseVariantSize size = .invalidSizeFormat →
      handleVariant id size format env = .invalidSizeFormat) ∧
    (∀ f, jsToLowerCase format ∈ supportedVariantFormats →
      env.uploadFiles.find? (fun g => jsStartsWith g id) = some f →
      parseVariantSize size = .invalidSizeParam →
      handleVariant id size format env = .invalidSizeParam) := by
  refine ⟨fun h1 => ?_, fun h1 h2 => ?_, fun f h1 h2 h3 => ?_,
    fun f h1 h2 h3 => ?_⟩
  · simp [handleVariant, h1]
  · simp [handleVariant, h1, h2]
  · simp [handleVariant, h1, h2, h3]
  · simp [handleVariant, h1, h2, h3]

theorem C3_witness :
    handleVariant "ghost" "300x300" "bmp" ⟨[], [], true, true⟩ =
      .unsupportedFormat ∧
    handleVariant "ghost" "300x300" "png" ⟨[], [], true, true⟩ =
      .imageNotFound ∧
    handleVariant "aa" "abcxdef" "png" ⟨["aa.png"], [], true, true⟩ =
      .invalidSizeFormat ∧
    handleVariant "aa" "huge" "png" ⟨["aa.png"], [], true, true⟩ =
      .invalidSizeParam :=
  ⟨(C3_amended_check_order "ghost" "300x300" "bmp" ⟨[], [], true, true⟩).1
      (by decide),
   (C3_amended_check_order "ghost" "300x300" "png" ⟨[], [], true, true⟩).2.1
      (by decide) (by decide),
   (C3_amended_check_order "aa" "abcxdef" "png"
      ⟨["aa.png"], [], true, true⟩).2.2.1 "aa.png" (by decide) (by decide)
      (by decide),
   (C3_amended_check_order "aa" "huge" "png"
      ⟨["aa.png"], [], true, true⟩).2.2.2 "aa.png" (by decide) (by decide)
      (by decide)⟩

/-! ## C4 -/

/-- C4 counterexample: the claim says non-preset tokens with zero,
negative, fractional, or empty width/height components are rejected.
The code's only check is `isNaN` on `Number(...)` of the split pieces
(src/index.js 286-289), so `0x0` (zero), `-3x5` (negative), `300x`
(empty second component, `Number('')` is `0`) and `1.5x2` (fractional)
are all accepted. -/
theorem C4_counterexample :
    parseVariantSize "0x0" = .ok (jsInt 0) (jsInt 0) ∧
    presetSizes.lookup "0x0" = none ∧
    parseVariantSize "-3x5" = .ok (jsInt (-3)) (jsInt 5) ∧
    parseVariantSize "300x" = .ok (jsInt 300) (jsInt 0) ∧
    parseVariantSize "1.5x2" = .ok (.num ⟨15, -1⟩) (jsInt 2) := by decide

/-- C4 as amended: a size token that is neither a preset name nor a
truthy inherited `Object.prototype` member is rejected with
`Invalid size parameter` when it contains no `x`; otherwise it is split
on `x` and rejected with `Invalid size format` exactly when `Number` of
either of the first two pieces is `NaN`, and accepted with those two
converted values otherwise — zero, negative and fractional components,
and empty components (which convert to `0`), are accepted. -/
theorem C4_amended_nonpreset_acceptance (size : String)
    (hp : presetSizes.lookup size = none)
    (hk : size ∉ objectProtoKeys) :
    (jsIncludesChar size 'x' = false →
      parseVariantSize size = .invalidSizeParam) ∧
    (jsIncludesChar size 'x' = true →
      (jsIsNaN (jsNumberOfPiece (jsSplitOnChar size 'x') 0) ||
       jsIsNaN (jsNumberOfPiece (jsSplitOnChar size 'x') 1)) = true →
      parseVariantSize size = .invalidSizeFormat) ∧
    (jsIncludesChar size 'x' = true →
      (jsIsNaN (jsNumberOfPiece (jsSplitOnChar size 'x') 0) ||
       jsIsNaN (jsNumberOfPiece (jsSplitOnChar size 'x') 1)) = false →
      parseVariantSize size =
        .ok (jsNumberOfPiece (jsSplitOnChar size 'x') 0)
          (jsNumberOfPiece (jsSplitOnChar size 'x') 1)) := by
  refine ⟨fun h1 => ?_, fun h1 h2 => ?_, fun h1 h2 => ?_⟩
  · simp [parseVariantSize, hp, hk, h1]
  · simp [parseVariantSize, hp, hk, h1, h2]
  · simp [parseVariantSize, hp, hk, h1, h2]

theorem C4_witness :
    parseVariantSize "7x9" =
      .ok (jsNumberOfPiece (jsSplitOnChar "7x9" 'x') 0)
        (jsNumberOfPiece (jsSplitOnChar "7x9" 'x') 1) :=
  (C4_amended_nonpreset_acceptance "7x9" (by decide) (by decide)).2.2
    (by decide) (by decide)

/-! ## C5 -/

/-- C5 counterexample: with zero configured disks and default disk name
`s3`, `initializeDisks` registers the implicit local fallback under the
*default* name `s3` (StorageManager.js 62-67 keys the fallback by
`this.defaultDisk`), so `disk('local')` throws the
`is not configured` error — the reserved name `local` does *not* always
resolve. -/
theorem C5_counterexample :
    initializeDisks ⟨some "s3", []⟩ = .ok [("s3", .localFallback)] ∧
    managerDisk [("s3", DiskEntry.localFallback)] "s3" (some "local") =
      .error "Storage disk \"local\" is not configured" := ⟨rfl, rfl⟩

/-- C5 as amended: after initialization the registry always contains an
entry under the default disk name (configured or the implicit local
fallback), so `disk(defaultName)` always resolves; every other
(non-falsy) name absent from the registry — `local` included, when it is
neither the default nor explicitly configured — fails with the
`Storage disk "<name>" is not configured` error. -/
theorem C5_amended_disk_resolution (c : StorageConfig)
    (reg : List (String × DiskEntry))
    (hreg : initializeDisks c = .ok reg) :
    (∃ d, managerDisk reg (defaultDiskName c) (some (defaultDiskName c)) =
      .ok d) ∧
    (∀ n, n ≠ "" → reg.lookup n = none →
      managerDisk reg (defaultDiskName c) (some n) =
        .error ("Storage disk \"" ++ n ++ "\" is not configured")) := by
  have hname0 : jsOrDefault (some (defaultDiskName c)) (defaultDiskName c) =
      defaultDiskName c := by
    show (if defaultDiskName c = "" then defaultDiskName c
      else defaultDiskName c) = defaultDiskName c
    split <;> rfl
  constructor
  · have hsome : (reg.lookup (defaultDiskName c)).isSome = true := by
      unfold initializeDisks at hreg
      split at hreg
      · split at hreg
        next hlk =>
          injection hreg with hmr
          subst hmr
          exact hlk
        next hlk =>
          injection hreg with hmr
          subst hmr
          rw [List.lookup_append]
          cases hm : List.lookup (defaultDiskName c)
              (c.disks.map fun d => (d.1, DiskEntry.configured d.2)) with
          | some v => simp
          | none => simp [List.lookup]
      · exact absurd hreg (by simp)
    obtain ⟨d, hd⟩ := Option.isSome_iff_exists.mp hsome
    exact ⟨d, by simp [managerDisk, hname0, hd]⟩
  · intro n hn hnone
    have hname : jsOrDefault (some n) (defaultDiskName c) = n := by
      simp [jsOrDefault, hn]
    simp [managerDisk, hname, hnone]

theorem C5_witness :
    managerDisk [("local", DiskEntry.localFallback)] "local" (some "s3") =
      .error "Storage disk \"s3\" is not configured" :=
  (C5_amended_disk_resolution ⟨none, []⟩ [("local", .localFallback)]
    rfl).2 "s3" (by decide) rfl

/-! ## C6 -/

/-- C6 counterexample: the claim says every fault inside `exists` or
`delete` is converted to `false` for every driver.  `LocalDriver.delete`
rethrows every non-`ENOENT` error (FilesystemAdapter.js 270-275), and
`GCSDriver.exists` has no `try`/`catch` at all (FilesystemAdapter.js
572-576), so a transport fault propagates out of both. -/
theorem C6_counterexample :
    localDelete .fault = .error () ∧ gcsExists .fault = .error () :=
  ⟨rfl, rfl⟩

/-- C6 as amended: `exists` converts every fault to `false` for the
local, s3 and azure drivers, but the gcs driver's `exists` propagates
transport faults (only a clean not-found yields `false`); `delete`
returns `false` when the path was already absent on every driver, and
converts other faults to `false` on s3, azure and gcs, while the local
driver's `delete` returns `false` only on `ENOENT` and rethrows every
other fault. -/
theorem C6_amended_fault_semantics :
    (localExists .fault = false ∧ localExists .notFound = false ∧
     s3Exists .fault = false ∧ s3Exists .notFound = false ∧
     azureExists .fault = false ∧ azureExists .notFound = false) ∧
    (gcsExists .fault = .error () ∧ gcsExists .notFound = .ok false) ∧
    (∀ r, localDelete r = .ok false ↔ r = .notFound) ∧
    localDelete .fault = .error () ∧
    (∀ r, r ≠ .ok →
      s3Delete r = .ok false ∧ azureDelete r = .ok false ∧
      gcsDelete r = .ok false) := by
  refine ⟨by decide, ⟨rfl, rfl⟩, fun r => ?_, rfl, fun r hr => ?_⟩
  · cases r <;> simp [localDelete]
  · cases r with
    | ok => exact absurd rfl hr
    | notFound => exact ⟨rfl, rfl, rfl⟩
    | fault => exact ⟨rfl, rfl, rfl⟩

/-! ## C7 -/

/-- C7 counterexample: the claim says a move whose source delete fails
after a successful copy is reported as failed, for every driver.  With
the s3 driver (likewise azure and gcs), a transport fault in `delete` is
swallowed into `false` (FilesystemAdapter.js 386-397), so
`move` = copy-then-delete still resolves `true`: the move is reported
successful even though the source was not deleted. -/
theorem C7_counterexample :
    adapterMove (.ok ()) (s3Delete .fault) = .ok true := rfl

/-- C7 as amended: `move(from, to)` is `copy(from, to)` followed by
`delete(from)` and reports failure exactly when one of the two awaited
steps rejects; a `delete` that merely *returns* `false` (an
already-absent source, or a swallowed fault on the s3/azure/gcs
drivers) still yields a successful move, while the local driver's
`delete` rethrows non-`ENOENT` faults and so fails the move. -/
theorem C7_amended_move_semantics :
    (∀ (c : Except Unit Unit) (d : Except Unit Bool),
      adapterMove c d = .ok true ↔ ((∃ u, c = .ok u) ∧ ∃ b, d = .ok b)) ∧
    (∀ d, adapterMove (.error ()) d = .error ()) ∧
    adapterMove (.ok ()) (localDelete .fault) = .error () ∧
    adapterMove (.ok ()) (localDelete .notFound) = .ok true ∧
    adapterMove (.ok ()) (s3Delete .fault) = .ok true ∧
    adapterMove (.ok ()) (azureDelete .fault) = .ok true ∧
    adapterMove (.ok ()) (gcsDelete .fault) = .ok true ∧
    (∀ b, adapterMove (.ok ()) (.ok b) = .ok true) := by
  refine ⟨fun c d => ?_, fun d => ?_, rfl, rfl, rfl, rfl, rfl, fun b => rfl⟩
  · cases c <;> cases d <;> simp [adapterMove]
  · rfl

/-! ## C8 -/

/-- C8: each preset name parses to exactly the same normalized
width/height values as its explicit `WxH` form (thumbnail ≡ 150x150,
small ≡ 300x300, medium ≡ 800x800, large ≡ 1920x1080), and therefore,
for every id, format and environment, the handler behaves identically on
the preset and on the explicit token — same derived cache key, same
cache entry selected, same response. -/
theorem C8_preset_explicit_equivalence :
    (parseVariantSize "thumbnail" = .ok (jsInt 150) (jsInt 150) ∧
     parseVariantSize "150x150" = .ok (jsInt 150) (jsInt 150)) ∧
    (parseVariantSize "small" = .ok (jsInt 300) (jsInt 300) ∧
     parseVariantSize "300x300" = .ok (jsInt 300) (jsInt 300)) ∧
    (parseVariantSize "medium" = .ok (jsInt 800) (jsInt 800) ∧
     parseVariantSize "800x800" = .ok (jsInt 800) (jsInt 800)) ∧
    (parseVariantSize "large" = .ok (jsInt 1920) (jsInt 1080) ∧
     parseVariantSize "1920x1080" = .ok (jsInt 1920) (jsInt 1080)) ∧
    (∀ id format env,
      handleVariant id "thumbnail" format env =
        handleVariant id "150x150" format env ∧
      handleVariant id "small" format env =
        handleVariant id "300x300" format env ∧
      handleVariant id "medium" format env =
        handleVariant id "800x800" format env ∧
      handleVariant id "large" format env =
        handleVariant id "1920x1080" format env) := by
  refine ⟨by decide, by decide, by decide, by decide,
    fun id format env => ?_⟩
  exact ⟨handleVariant_size_congr (by decide) id format env,
    handleVariant_size_congr (by decide) id format env,
    handleVariant_size_congr (by decide) id format env,
    handleVariant_size_congr (by decide) id format env⟩

/-! ## C9 -/

/-- C9: under the working directory's design invariants (duplicate-free
listings, at most one file matching the id prefix), the delete handler
always reports success — also when nothing matches — and afterwards the
backend no longer holds the original's path, no cache file with the id
prefix remains, and `GET /api/image/:id` answers 404 (the prefix scan
finds nothing). -/
theorem C9_delete_idempotent (st : ServerState) (id : String)
    (hnodup : st.uploadFiles.Nodup)
    (hbnodup : st.backendPaths.Nodup)
    (huniq : ∀ g₁ ∈ st.uploadFiles, ∀ g₂ ∈ st.uploadFiles,
      jsStartsWith g₁ id = true → jsStartsWith g₂ id = true → g₁ = g₂) :
    (deleteImage st id).2 = true ∧
    (∀ f, getOriginal st id = some f →
      ("images/" ++ f) ∉ (deleteImage st id).1.backendPaths) ∧
    (∀ f, f ∈ (deleteImage st id).1.cacheFiles →
      jsStartsWith f id = false) ∧
    getOriginal (deleteImage st id).1 id = none := by
  cases horig : st.uploadFiles.find? (fun g => jsStartsWith g id) with
  | none =>
    refine ⟨rfl, ?_, ?_, ?_⟩
    · intro f hf
      unfold getOriginal at hf
      rw [horig] at hf
      cases hf
    · intro f hf
      simp only [deleteImage, horig] at hf
      have hpf := (List.mem_filter.mp hf).2
      simpa using hpf
    · simp only [getOriginal, deleteImage, horig]
  | some f0 =>
    have hpred : jsStartsWith f0 id = true := by
      simpa using List.find?_some horig
    have hmem0 : f0 ∈ st.uploadFiles := List.mem_of_find?_eq_some horig
    refine ⟨rfl, ?_, ?_, ?_⟩
    · intro f hf
      unfold getOriginal at hf
      rw [horig] at hf
      injection hf with hff
      subst hff
      simp only [deleteImage, horig]
      by_cases hmem : ("images/" ++ f0) ∈ st.backendPaths
      · rw [if_pos hmem]
        exact List.Nodup.not_mem_erase hbnodup
      · rw [if_neg hmem]
        exact hmem
    · intro f hf
      simp only [deleteImage, horig] at hf
      have hpf := (List.mem_filter.mp hf).2
      simpa using hpf
    · simp only [getOriginal, deleteImage, horig]
      rw [List.find?_eq_none]
      intro g hg hpg
      have hg2 := (List.Nodup.mem_erase_iff hnodup).mp hg
      exact hg2.1 (huniq g hg2.2 f0 hmem0 (by simpa using hpg) hpred)

theorem C9_witness :
    (deleteImage ⟨["abc.png", "zzz.jpg"],
      ["abc_150x150_webp.webp", "zzz_1x1_png.png"],
      ["images/abc.png"]⟩ "abc").2 = true ∧
    getOriginal (deleteImage ⟨["abc.png", "zzz.jpg"],
      ["abc_150x150_webp.webp", "zzz_1x1_png.png"],
      ["images/abc.png"]⟩ "abc").1 "abc" = none := by
  have h := C9_delete_idempotent
    ⟨["abc.png", "zzz.jpg"],
      ["abc_150x150_webp.webp", "zzz_1x1_png.png"],
      ["images/abc.png"]⟩ "abc" (by decide) (by decide) (by decide)
  exact ⟨h.1, h.2.2.2⟩

/-! ## C10 -/

/-- C10: the cache key and cache filename embed the raw requested format
token (src/index.js 295-296), so `jpg` and `jpeg` — and tokens differing
only in letter case, such as `JPG` and `jpg` — always derive distinct
cache keys and distinct cache files for the same id, width and height,
while the jpg-to-jpeg normalization shows up only in the encoder choice
(`switch (format.toLowerCase())`, all three tokens select the jpeg
encoder at quality 85) and in the Content-Type expression
(`format === 'jpg' ? 'jpeg' : format`). -/
theorem C10_raw_format_in_cache_key (id : String) (w h : JSVal) :
    cacheKey id w h "jpg" ≠ cacheKey id w h "jpeg" ∧
    cacheFileName id w h "jpg" ≠ cacheFileName id w h "jpeg" ∧
    cacheKey id w h "JPG" ≠ cacheKey id w h "jpg" ∧
    cacheFileName id w h "JPG" ≠ cacheFileName id w h "jpg" ∧
    encoderFor "jpg" = .jpeg 85 ∧ encoderFor "jpeg" = .jpeg 85 ∧
    encoderFor "JPG" = .jpeg 85 ∧
    contentTypeFor "jpg" = "image/jpeg" ∧
    contentTypeFor "jpeg" = "image/jpeg" := by
  refine ⟨fun hq => ?_, fun hq => ?_, fun hq => ?_, fun hq => ?_,
    by decide, by decide, by decide, by decide, by decide⟩
  · exact absurd (cacheKey_format_inj hq) (by decide)
  · exact absurd (cacheFileName_format_inj hq) (by decide)
  · exact absurd (cacheKey_format_inj hq) (by decide)
  · exact absurd (cacheFileName_format_inj hq) (by decide)

theorem C10_witness :
    cacheKey "a" (jsInt 1) (jsInt 2) "jpg" ≠
      cacheKey "a" (jsInt 1) (jsInt 2) "jpeg" :=
  (C10_raw_format_in_cache_key "a" (jsInt 1) (jsInt 2)).1
